import Mathlib

/-!
# Shallow embedding of the `rdma-rs` verbs wrapper layer

This file embeds the resource-lifecycle layer of the repository
(`src/src/ibv.rs`, `src/src/lib.rs`, `src/src/error.rs`) and proves the
specification claims about it.

The repository declares `mod ffi;` (bindgen bindings to the verbs ABI) but the
`ffi` module itself is not part of the sources under `src/`.  Every driver call
is therefore modelled as an explicit oracle argument: a wrapper function takes,
for each driver call it makes, either the driver's return value for that call or
a function computing it from the arguments the wrapper passes.  The wrapper
logic itself — which arguments are built, how return values are checked, which
error is produced — is translated directly from the Rust source.
-/

/-- The error enum of `src/src/error.rs`. -/
inductive IbvContextError where
  | NoDevice
  | OpenDeviceError
deriving DecidableEq, Repr

/-- The device-selection scan inside `IbvContext::new` (src/src/ibv.rs:38-49,
identically src/src/lib.rs:31-42): iterate over the enumerated device list in
order, `strcmp` each device name against the requested name (byte-for-byte
string equality), stop at the first match (`break`); devices are modelled by
their index in the enumerated list.  `none` models `tmp_dev` remaining the null
pointer when no device matches. -/
def findDeviceIdx (devList : List String) (name : String) : Option Nat :=
  match devList with
  | [] => none
  | d :: rest => if d = name then some 0 else (findDeviceIdx rest name).map (· + 1)

/-- The `match dev_name` in `IbvContext::new` (src/src/ibv.rs:31-52): with no
name requested the first enumerated device (`*dev_list_ptr`, index 0) is chosen;
with a name requested the scan result (possibly the null device, `none`) is
chosen. -/
def chooseDevice (devList : List String) (devName : Option String) : Option Nat :=
  match devName with
  | none => some 0
  | some name => findDeviceIdx devList name

/-- `IbvContext::new` (src/src/ibv.rs:23-66; same logic src/src/lib.rs:16-57).
`devList` is the enumerated device list (`ibv_get_device_list`), `openDevice`
the driver oracle for `ibv_open_device`: its argument is the chosen device
(`none` being the null pointer left by a failed name scan) and a `none` result
models a null context pointer.  The `debug_assert_ne!(num_devs, 0)` is compiled
out of release builds and is not modelled. -/
def IbvContext.new (devList : List String) (devName : Option String)
    (openDevice : Option Nat → Option Nat) : Except IbvContextError Nat :=
  if devList.length = 0 then .error IbvContextError.NoDevice
  else
    match openDevice (chooseDevice devList devName) with
    | none => .error IbvContextError.OpenDeviceError
    | some ctx => .ok ctx

/-- Modelled from the spec: the `ffi` module with the `ibv_open_device` binding
is not under `src/`.  Per the spec, opening the null device pointer left by a
name that matched no enumerated device fails: "if a name is given and not found
among enumerated devices, the underlying open call fails (OpenFailed)".  A
driver oracle satisfies this when it returns null for the null device. -/
def openDeviceNullFails (openDevice : Option Nat → Option Nat) : Prop :=
  openDevice none = none

theorem findDeviceIdx_nil (name : String) : findDeviceIdx [] name = none := rfl

theorem findDeviceIdx_eq_none_of_not_mem (devList : List String) (name : String)
    (h : name ∉ devList) : findDeviceIdx devList name = none := by
  induction devList with
  | nil => rfl
  | cons d rest ih =>
    simp only [List.mem_cons, not_or] at h
    have hd : ¬(d = name) := fun hdn => h.1 hdn.symm
    simp only [findDeviceIdx, if_neg hd, ih h.2, Option.map_none']

theorem findDeviceIdx_eq_first (devList : List String) (name : String) (i : Nat)
    (hget : devList[i]? = some name)
    (hbefore : ∀ j, j < i → devList[j]? ≠ some name) :
    findDeviceIdx devList name = some i := by
  induction devList generalizing i with
  | nil => simp at hget
  | cons d rest ih =>
    cases i with
    | zero =>
      simp only [List.getElem?_cons_zero, Option.some.injEq] at hget
      simp [findDeviceIdx, hget]
    | succ i' =>
      have hd : d ≠ name := by
        intro hd
        exact hbefore 0 (Nat.succ_pos i') (by simp [hd])
      simp only [List.getElem?_cons_succ] at hget
      have hb' : ∀ j, j < i' → rest[j]? ≠ some name := by
        intro j hj
        have := hbefore (j + 1) (Nat.succ_lt_succ hj)
        simpa using this
      simp [findDeviceIdx, hd, ih i' hget hb']

/-- Modelled from the spec: verbs ABI value of `ibv_qp_state::IBV_QPS_INIT`
(the `ffi` module declaring it is not under `src/`; the spec fixes the verbs
ABI as the contract). -/
def IBV_QPS_INIT : Nat := 1

/-- Modelled from the spec: verbs ABI value of `ibv_qp_state::IBV_QPS_RTR`. -/
def IBV_QPS_RTR : Nat := 2

/-- Modelled from the spec: verbs ABI value of `ibv_qp_state::IBV_QPS_RTS`. -/
def IBV_QPS_RTS : Nat := 3

/-- Verbs value of `IBV_MTU_1024`; this one is also in the source itself
(src/src/ibv.rs:791, `IbvMtu1024 = 3`). -/
def IBV_MTU_1024 : Nat := 3

/-- Modelled from the spec: verbs ABI access-flag bit `IBV_ACCESS_LOCAL_WRITE`. -/
def IBV_ACCESS_LOCAL_WRITE : Nat := 1

/-- Modelled from the spec: verbs ABI access-flag bit `IBV_ACCESS_REMOTE_WRITE`. -/
def IBV_ACCESS_REMOTE_WRITE : Nat := 2

/-- Modelled from the spec: verbs ABI access-flag bit `IBV_ACCESS_REMOTE_READ`. -/
def IBV_ACCESS_REMOTE_READ : Nat := 4

/-- Modelled from the spec: verbs ABI mask bit `IBV_QP_STATE` (1 << 0). -/
def IBV_QP_STATE : Nat := 1

/-- Modelled from the spec: verbs ABI mask bit `IBV_QP_ACCESS_FLAGS` (1 << 3). -/
def IBV_QP_ACCESS_FLAGS : Nat := 8

/-- Modelled from the spec: verbs ABI mask bit `IBV_QP_PKEY_INDEX` (1 << 4). -/
def IBV_QP_PKEY_INDEX : Nat := 16

/-- Modelled from the spec: verbs ABI mask bit `IBV_QP_PORT` (1 << 5). -/
def IBV_QP_PORT : Nat := 32

/-- Modelled from the spec: verbs ABI mask bit `IBV_QP_AV` (1 << 7). -/
def IBV_QP_AV : Nat := 128

/-- Modelled from the spec: verbs ABI mask bit `IBV_QP_PATH_MTU` (1 << 8). -/
def IBV_QP_PATH_MTU : Nat := 256

/-- Modelled from the spec: verbs ABI mask bit `IBV_QP_TIMEOUT` (1 << 9). -/
def IBV_QP_TIMEOUT : Nat := 512

/-- Modelled from the spec: verbs ABI mask bit `IBV_QP_RETRY_CNT` (1 << 10). -/
def IBV_QP_RETRY_CNT : Nat := 1024

/-- Modelled from the spec: verbs ABI mask bit `IBV_QP_RNR_RETRY` (1 << 11). -/
def IBV_QP_RNR_RETRY : Nat := 2048

/-- Modelled from the spec: verbs ABI mask bit `IBV_QP_RQ_PSN` (1 << 12). -/
def IBV_QP_RQ_PSN : Nat := 4096

/-- Modelled from the spec: verbs ABI mask bit `IBV_QP_MAX_QP_RD_ATOMIC` (1 << 13). -/
def IBV_QP_MAX_QP_RD_ATOMIC : Nat := 8192

/-- Modelled from the spec: verbs ABI mask bit `IBV_QP_MIN_RNR_TIMER` (1 << 15). -/
def IBV_QP_MIN_RNR_TIMER : Nat := 32768

/-- Modelled from the spec: verbs ABI mask bit `IBV_QP_SQ_PSN` (1 << 16). -/
def IBV_QP_SQ_PSN : Nat := 65536

/-- Modelled from the spec: verbs ABI mask bit `IBV_QP_MAX_DEST_RD_ATOMIC` (1 << 17). -/
def IBV_QP_MAX_DEST_RD_ATOMIC : Nat := 131072

/-- Modelled from the spec: verbs ABI mask bit `IBV_QP_DEST_QPN` (1 << 20). -/
def IBV_QP_DEST_QPN : Nat := 1048576

/-- The fields of `ffi::ibv_qp_attr` written by the three `IbvQp::modify_*`
functions (src/src/ibv.rs:381-468); `ah_*` fields are the members of the
embedded `ah_attr` address vector.  All fields the Rust code leaves at
`std::mem::zeroed()` are modelled by `IbvQpAttr.zeroed`. -/
structure IbvQpAttr where
  qp_state : Nat
  pkey_index : Nat
  port_num : Nat
  qp_access_flags : Nat
  path_mtu : Nat
  dest_qp_num : Nat
  rq_psn : Nat
  max_dest_rd_atomic : Nat
  min_rnr_timer : Nat
  ah_is_global : Nat
  ah_dlid : Nat
  ah_sl : Nat
  ah_src_path_bits : Nat
  ah_port_num : Nat
  timeout : Nat
  retry_cnt : Nat
  rnr_retry : Nat
  sq_psn : Nat
  max_rd_atomic : Nat
deriving DecidableEq, Repr

/-- `std::mem::zeroed::<ffi::ibv_qp_attr>()`. -/
def IbvQpAttr.zeroed : IbvQpAttr :=
  { qp_state := 0, pkey_index := 0, port_num := 0, qp_access_flags := 0
    path_mtu := 0, dest_qp_num := 0, rq_psn := 0, max_dest_rd_atomic := 0
    min_rnr_timer := 0, ah_is_global := 0, ah_dlid := 0, ah_sl := 0
    ah_src_path_bits := 0, ah_port_num := 0, timeout := 0, retry_cnt := 0
    rnr_retry := 0, sq_psn := 0, max_rd_atomic := 0 }

/-- The `ibv_qp_attr` record built by `IbvQp::modify_reset2init`
(src/src/ibv.rs:382-388). -/
def modify_reset2init_attr (port_num : Nat) : IbvQpAttr :=
  { IbvQpAttr.zeroed with
    qp_state := IBV_QPS_INIT
    pkey_index := 0
    port_num := port_num
    qp_access_flags :=
      IBV_ACCESS_LOCAL_WRITE ||| IBV_ACCESS_REMOTE_READ ||| IBV_ACCESS_REMOTE_WRITE }

/-- The attribute mask passed by `IbvQp::modify_reset2init`
(src/src/ibv.rs:393-396). -/
def modify_reset2init_mask : Nat :=
  IBV_QP_STATE ||| IBV_QP_PKEY_INDEX ||| IBV_QP_PORT ||| IBV_QP_ACCESS_FLAGS

/-- `IbvQp::modify_reset2init` (src/src/ibv.rs:381-403): one `ibv_modify_qp`
call with the record and mask above; `modifyQp` is the driver oracle giving the
return code for the (attr, mask) the wrapper passes.  The wrapper reports an
error exactly when that return equals -1 (`if ret == -1`). -/
def IbvQp.modify_reset2init (port_num : Nat) (modifyQp : IbvQpAttr → Nat → Int) :
    Except Unit Unit :=
  if modifyQp (modify_reset2init_attr port_num) modify_reset2init_mask = -1 then
    .error ()
  else .ok ()

/-- The `ibv_qp_attr` record built by `IbvQp::modify_init2rtr`
(src/src/ibv.rs:413-424). -/
def modify_init2rtr_attr (sl port_num remote_qpn remote_psn remote_lid : Nat) :
    IbvQpAttr :=
  { IbvQpAttr.zeroed with
    qp_state := IBV_QPS_RTR
    path_mtu := IBV_MTU_1024
    dest_qp_num := remote_qpn
    rq_psn := remote_psn
    max_dest_rd_atomic := 1
    min_rnr_timer := 12
    ah_is_global := 0
    ah_dlid := remote_lid
    ah_sl := sl
    ah_src_path_bits := 0
    ah_port_num := port_num }

/-- The attribute mask passed by `IbvQp::modify_init2rtr`
(src/src/ibv.rs:429-435). -/
def modify_init2rtr_mask : Nat :=
  IBV_QP_STATE ||| IBV_QP_AV ||| IBV_QP_PATH_MTU ||| IBV_QP_DEST_QPN |||
    IBV_QP_RQ_PSN ||| IBV_QP_MAX_DEST_RD_ATOMIC ||| IBV_QP_MIN_RNR_TIMER

/-- `IbvQp::modify_init2rtr` (src/src/ibv.rs:404-442): one `ibv_modify_qp`
call; error exactly when the driver return equals -1. -/
def IbvQp.modify_init2rtr (sl port_num remote_qpn remote_psn remote_lid : Nat)
    (modifyQp : IbvQpAttr → Nat → Int) : Except Unit Unit :=
  if modifyQp (modify_init2rtr_attr sl port_num remote_qpn remote_psn remote_lid)
      modify_init2rtr_mask = -1 then
    .error ()
  else .ok ()

/-- The `ibv_qp_attr` record built by `IbvQp::modify_rtr2rts`
(src/src/ibv.rs:445-451). -/
def modify_rtr2rts_attr (psn : Nat) : IbvQpAttr :=
  { IbvQpAttr.zeroed with
    qp_state := IBV_QPS_RTS
    timeout := 14
    retry_cnt := 7
    rnr_retry := 7
    sq_psn := psn
    max_rd_atomic := 1 }

/-- The attribute mask passed by `IbvQp::modify_rtr2rts`
(src/src/ibv.rs:456-461). -/
def modify_rtr2rts_mask : Nat :=
  IBV_QP_STATE ||| IBV_QP_TIMEOUT ||| IBV_QP_RETRY_CNT ||| IBV_QP_RNR_RETRY |||
    IBV_QP_SQ_PSN ||| IBV_QP_MAX_QP_RD_ATOMIC

/-- `IbvQp::modify_rtr2rts` (src/src/ibv.rs:444-468): one `ibv_modify_qp`
call; error exactly when the driver return equals -1. -/
def IbvQp.modify_rtr2rts (psn : Nat) (modifyQp : IbvQpAttr → Nat → Int) :
    Except Unit Unit :=
  if modifyQp (modify_rtr2rts_attr psn) modify_rtr2rts_mask = -1 then
    .error ()
  else .ok ()

/-- Modelled from the spec: the verbs ABI return convention of `ibv_modify_qp`
(declared in the absent `ffi` module).  A rejected transition — e.g. the
out-of-order RTR→RTS attempt of the spec scenario — is reported by a nonzero
return, the positive errno value (EINVAL = 22), never by -1. -/
def modifyQpRejectEinval : IbvQpAttr → Nat → Int := fun _ _ => 22

/-- The `num_entries` argument `IbvCq::poll` passes to the driver's `poll_cq`
entry point (src/src/ibv.rs:222, `cqe_arr.len() as i32`): exactly the length of
the caller's buffer. -/
def pollNumEntriesArg {α : Type} (cqeArr : List α) : Nat := cqeArr.length

/-- `IbvCq::poll` (src/src/ibv.rs:217-230).  `n` is the return of the driver's
`poll_cq` call for this buffer (the driver fills the first `n` buffer entries;
the filled buffer is modelled by `cqeArr`'s contents).  A negative `n` is an
error; otherwise the wrapper returns the slice `&cqe_arr[0..n]`.  Rust slicing
with `n` beyond the buffer length is an index panic, modelled as the outer
`none`; a well-behaved driver never reports more than `num_entries`. -/
def IbvCq.poll {α : Type} (cqeArr : List α) (n : Int) :
    Option (Except Unit (List α)) :=
  if n < 0 then some (.error ())
  else if n.toNat ≤ cqeArr.length then some (.ok (cqeArr.take n.toNat))
  else none

/-- `IbvMr::new` (src/src/ibv.rs:289-306): passes `region.as_ptr()`,
`region.len()` and `access` to `ibv_reg_mr`; `regMr` is the driver oracle
(length and access flags to registered handle, `none` for a null return, which
the wrapper turns into an error). -/
def IbvMr.new (region : List Nat) (access : Nat)
    (regMr : Nat → Nat → Option Nat) : Except Unit Nat :=
  match regMr region.length access with
  | none => .error ()
  | some mr => .ok mr

/-- `IbvMr::new_raw` (src/src/ibv.rs:307-322): same call with a caller-supplied
raw length instead of a buffer. -/
def IbvMr.new_raw (length : Nat) (access : Nat)
    (regMr : Nat → Nat → Option Nat) : Except Unit Nat :=
  match regMr length access with
  | none => .error ()
  | some mr => .ok mr

/-- Modelled from the spec: rejection behavior of `ibv_reg_mr` (absent `ffi`
module / driver) on a zero-length range — "register a zero-length byte range →
AllocFailed (or equivalent rejection) since no valid DMA range exists": the
driver returns null for length 0.  Other inputs are unconstrained. -/
def regMrRejectsZeroLen (regMr : Nat → Nat → Option Nat) : Prop :=
  ∀ access, regMr 0 access = none

/-- `impl Drop for IbvContext` (src/src/ibv.rs:135-142): given the return `ret`
of `ibv_close_device`, the destructor panics iff `ret != 0`. -/
def IbvContext.drop_panics (ret : Int) : Bool := ret != 0

/-- `impl Drop for IbvPd` (src/src/ibv.rs:165-172): panics iff `ret != 0` for
the `ibv_dealloc_pd` return. -/
def IbvPd.drop_panics (ret : Int) : Bool := ret != 0

/-- `impl Drop for IbvCq` (src/src/ibv.rs:241-248): panics iff `ret != -1` for
the `ibv_destroy_cq` return — note the direction of the test in the source. -/
def IbvCq.drop_panics (ret : Int) : Bool := ret != -1

/-- `impl Drop for IbvCompChannel` (src/src/ibv.rs:271-281): panics iff
`ret != 0` for the `ibv_destroy_comp_channel` return. -/
def IbvCompChannel.drop_panics (ret : Int) : Bool := ret != 0

/-- `impl Drop for IbvMr` (src/src/ibv.rs:333-340): panics iff `ret != 0` for
the `ibv_dereg_mr` return. -/
def IbvMr.drop_panics (ret : Int) : Bool := ret != 0

/-- `impl Drop for IbvQp` (src/src/ibv.rs:474-481): panics iff `ret == -1` for
the `ibv_destroy_qp` return. -/
def IbvQp.drop_panics (ret : Int) : Bool := ret == -1

/-- Modelled from the spec: the verbs ABI destroy/dealloc calls report success
with return 0 (the `ffi` module declaring them is not under `src/`); 0 is the
return a destructor sees when "the driver call succeeds". -/
def driverDestroySuccess : Int := 0

/-- `#[derive(Clone)] pub struct IbvContext` (src/src/ibv.rs:17-20): one raw
handle field, no reference count; handles are modelled by `Nat`. -/
structure IbvContextW where
  ibv_context : Nat
deriving DecidableEq, Repr

/-- The derived `Clone` of `IbvContext`: a memberwise copy of the handle. -/
def IbvContextW.clone (x : IbvContextW) : IbvContextW :=
  { ibv_context := x.ibv_context }

/-- The one driver call `IbvContext`'s destructor issues:
`ibv_close_device(self.ibv_context)` on the value's handle. -/
def IbvContextW.dropDestroyCall (x : IbvContextW) : Nat := x.ibv_context

/-- `#[derive(Clone)] pub struct IbvPd` (src/src/ibv.rs:146-149). -/
structure IbvPdW where
  ibv_pd : Nat
deriving DecidableEq, Repr

/-- The derived `Clone` of `IbvPd`: a memberwise copy of the handle. -/
def IbvPdW.clone (x : IbvPdW) : IbvPdW := { ibv_pd := x.ibv_pd }

/-- The destructor's driver call: `ibv_dealloc_pd(self.ibv_pd)`. -/
def IbvPdW.dropDestroyCall (x : IbvPdW) : Nat := x.ibv_pd

/-- `#[derive(Clone)] pub struct IbvCq` (src/src/ibv.rs:176-179). -/
structure IbvCqW where
  ibv_cq : Nat
deriving DecidableEq, Repr

/-- The derived `Clone` of `IbvCq`: a memberwise copy of the handle. -/
def IbvCqW.clone (x : IbvCqW) : IbvCqW := { ibv_cq := x.ibv_cq }

/-- The destructor's driver call: `ibv_destroy_cq(self.ibv_cq)`. -/
def IbvCqW.dropDestroyCall (x : IbvCqW) : Nat := x.ibv_cq

/-- `#[derive(Clone)] pub struct IbvCompChannel` (src/src/ibv.rs:253-256). -/
structure IbvCompChannelW where
  ibv_comp_channel : Nat
deriving DecidableEq, Repr

/-- The derived `Clone` of `IbvCompChannel`: a memberwise copy of the handle. -/
def IbvCompChannelW.clone (x : IbvCompChannelW) : IbvCompChannelW :=
  { ibv_comp_channel := x.ibv_comp_channel }

/-- The destructor's driver call:
`ibv_destroy_comp_channel(self.ibv_comp_channel)`. -/
def IbvCompChannelW.dropDestroyCall (x : IbvCompChannelW) : Nat :=
  x.ibv_comp_channel

/-- `#[derive(Clone)] pub struct IbvMr` (src/src/ibv.rs:283-286). -/
structure IbvMrW where
  ibv_mr : Nat
deriving DecidableEq, Repr

/-- The derived `Clone` of `IbvMr`: a memberwise copy of the handle. -/
def IbvMrW.clone (x : IbvMrW) : IbvMrW := { ibv_mr := x.ibv_mr }

/-- The destructor's driver call: `ibv_dereg_mr(self.ibv_mr)`. -/
def IbvMrW.dropDestroyCall (x : IbvMrW) : Nat := x.ibv_mr

/-- `#[derive(Clone)] pub struct IbvQp` (src/src/ibv.rs:344-347). -/
structure IbvQpW where
  ibv_qp : Nat
deriving DecidableEq, Repr

/-- The derived `Clone` of `IbvQp`: a memberwise copy of the handle. -/
def IbvQpW.clone (x : IbvQpW) : IbvQpW := { ibv_qp := x.ibv_qp }

/-- The destructor's driver call: `ibv_destroy_qp(self.ibv_qp)`. -/
def IbvQpW.dropDestroyCall (x : IbvQpW) : Nat := x.ibv_qp

/-- Dropping every value in a list issues one driver destroy call per value
(each `Drop` implementation makes exactly one call on its own handle). -/
def dropAllDestroyCallsQp (xs : List IbvQpW) : List Nat :=
  xs.map IbvQpW.dropDestroyCall

/-- Dropping every `IbvMr` value in a list: one `ibv_dereg_mr` call each. -/
def dropAllDestroyCallsMr (xs : List IbvMrW) : List Nat :=
  xs.map IbvMrW.dropDestroyCall

/-- C1: the claim fails on the code.  The driver rejects the out-of-order
RTR→RTS transition with a nonzero result (the positive errno EINVAL = 22, per
the verbs convention), yet `IbvQp::modify_rtr2rts` reports success: the wrapper
treats only a -1 return as failure, so a driver rejection is not surfaced as a
modify failure. -/
theorem C1_modify_rejection_not_surfaced :
    IbvQp.modify_rtr2rts 0 modifyQpRejectEinval = Except.ok () ∧
    modifyQpRejectEinval (modify_rtr2rts_attr 0) modify_rtr2rts_mask ≠ 0 := by
  constructor
  · rfl
  · decide

/-- C2: the claim fails on the code.  `IbvCq`'s destructor panics when the
`ibv_destroy_cq` return is not -1 — in particular it panics on the driver's
success return 0, and does not panic on -1 — while the sibling destructors
(e.g. `IbvMr`, `IbvPd`) complete normally on 0.  So destroying objects in
reverse-dependency order, with every driver call succeeding, still terminates
the process at the first `IbvCq`. -/
theorem C2_cq_destructor_panics_on_success :
    IbvCq.drop_panics driverDestroySuccess = true ∧
    IbvCq.drop_panics (-1) = false ∧
    IbvMr.drop_panics driverDestroySuccess = false ∧
    IbvPd.drop_panics driverDestroySuccess = false ∧
    IbvContext.drop_panics driverDestroySuccess = false ∧
    IbvCompChannel.drop_panics driverDestroySuccess = false := by
  decide

/-- C3: `IbvCq::poll` asks the driver for exactly `buffer.len()` entries, and
whenever the driver return `n` respects its contract (at most the requested
count), a negative `n` is surfaced as an error while `0 ≤ n` yields the slice
of the first `n` buffer entries — length exactly `n`, never exceeding
`buffer.len()`. -/
theorem C3_poll_len_bounded {α : Type} (cqeArr : List α) (n : Int)
    (hcontract : n ≤ (cqeArr.length : Int)) :
    pollNumEntriesArg cqeArr = cqeArr.length ∧
    (n < 0 → IbvCq.poll cqeArr n = some (Except.error ())) ∧
    (0 ≤ n → IbvCq.poll cqeArr n = some (Except.ok (cqeArr.take n.toNat)) ∧
      (cqeArr.take n.toNat).length = n.toNat ∧ n.toNat ≤ cqeArr.length) := by
  refine ⟨rfl, ?_, ?_⟩
  · intro hneg
    simp [IbvCq.poll, hneg]
  · intro hpos
    have hle : n.toNat ≤ cqeArr.length := Int.toNat_le.mpr hcontract
    refine ⟨?_, ?_, hle⟩
    · simp [IbvCq.poll, not_lt.mpr hpos, hle]
    · simp [List.length_take, Nat.min_eq_left hle]

theorem C3_poll_len_bounded_witness :
    pollNumEntriesArg [10, 20, 30] = 3 ∧
    IbvCq.poll [10, 20, 30] 2 = some (Except.ok [10, 20]) ∧
    IbvCq.poll [10, 20, 30] (-1) = some (Except.error ()) := by
  have h := C3_poll_len_bounded [10, 20, 30] 2 (by decide)
  have h' := C3_poll_len_bounded [10, 20, 30] (-1) (by decide)
  exact ⟨h.1, (h.2.2 (by decide)).1, h'.2.1 (by decide)⟩

/-- C4: `IbvContext::new` returns `NoDevice` exactly when enumeration yields
zero devices; with a requested name matching no enumerated device the chosen
device is null, the driver open fails (spec-modelled), and the result is
`OpenDeviceError` — not `NoDevice`. -/
theorem C4_open_error_taxonomy (devList : List String) (devName : Option String)
    (openDevice : Option Nat → Option Nat)
    (hnull : openDeviceNullFails openDevice) :
    (IbvContext.new devList devName openDevice =
        Except.error IbvContextError.NoDevice ↔ devList = []) ∧
    (∀ name, devName = some name → name ∉ devList → devList ≠ [] →
      IbvContext.new devList devName openDevice =
        Except.error IbvContextError.OpenDeviceError) := by
  constructor
  · constructor
    · intro h
      by_contra hne
      have hlen : devList.length ≠ 0 := by
        simpa [List.length_eq_zero] using hne
      unfold IbvContext.new at h
      rw [if_neg hlen] at h
      cases hopen : openDevice (chooseDevice devList devName) with
      | none => rw [hopen] at h; simp at h
      | some ctx => rw [hopen] at h; simp at h
    · intro h
      subst h
      rfl
  · intro name hname hmem hne
    have hlen : devList.length ≠ 0 := by
      simpa [List.length_eq_zero] using hne
    have hchoose : chooseDevice devList devName = none := by
      rw [hname]
      exact findDeviceIdx_eq_none_of_not_mem devList name hmem
    unfold IbvContext.new
    rw [if_neg hlen, hchoose, hnull]

theorem C4_open_error_taxonomy_witness :
    IbvContext.new ["mlx5_0"] (some "mlx5_1") (fun d => d) =
      Except.error IbvContextError.OpenDeviceError ∧
    IbvContext.new [] none (fun d => d) =
      Except.error IbvContextError.NoDevice := by
  have h1 := C4_open_error_taxonomy ["mlx5_0"] (some "mlx5_1") (fun d => d) rfl
  have h2 := C4_open_error_taxonomy ([] : List String) none (fun d => d) rfl
  exact ⟨h1.2 "mlx5_1" rfl (by decide) (by decide), h2.1.mpr rfl⟩

/-- C5: `modify_reset2init` issues its single modify call with pkey index 0,
access flags LOCAL_WRITE | REMOTE_READ | REMOTE_WRITE, state INIT, the caller's
port number, and an attribute mask whose set bits are exactly those of
{IBV_QP_STATE, IBV_QP_PKEY_INDEX, IBV_QP_PORT, IBV_QP_ACCESS_FLAGS}
(bits 0, 4, 5, 3) and nothing else. -/
theorem C5_reset2init_mask_and_values (port_num : Nat) :
    (modify_reset2init_attr port_num).qp_state = IBV_QPS_INIT ∧
    (modify_reset2init_attr port_num).pkey_index = 0 ∧
    (modify_reset2init_attr port_num).port_num = port_num ∧
    (modify_reset2init_attr port_num).qp_access_flags =
      (IBV_ACCESS_LOCAL_WRITE ||| IBV_ACCESS_REMOTE_READ |||
        IBV_ACCESS_REMOTE_WRITE) ∧
    modify_reset2init_mask =
      (IBV_QP_STATE ||| IBV_QP_PKEY_INDEX ||| IBV_QP_PORT |||
        IBV_QP_ACCESS_FLAGS) ∧
    modify_reset2init_mask < 2 ^ 32 ∧
    (Finset.range 32).filter (fun b => modify_reset2init_mask.testBit b) =
      {0, 3, 4, 5} := by
  refine ⟨rfl, rfl, rfl, rfl, rfl, by decide, by decide⟩

/-- C6: `modify_init2rtr` issues its single modify call with path MTU fixed at
the 1024-byte profile, max_dest_rd_atomic 1, min_rnr_timer 12, is_global 0,
src_path_bits 0, state RTR, the caller's destination QPN / receive PSN /
destination LID / service level / port, and an attribute mask whose set bits
are exactly those of {IBV_QP_STATE, IBV_QP_AV, IBV_QP_PATH_MTU,
IBV_QP_DEST_QPN, IBV_QP_RQ_PSN, IBV_QP_MAX_DEST_RD_ATOMIC,
IBV_QP_MIN_RNR_TIMER} (bits 0, 7, 8, 20, 12, 17, 15) and nothing else. -/
theorem C6_init2rtr_mask_and_values
    (sl port_num remote_qpn remote_psn remote_lid : Nat) :
    (modify_init2rtr_attr sl port_num remote_qpn remote_psn remote_lid).qp_state
        = IBV_QPS_RTR ∧
    (modify_init2rtr_attr sl port_num remote_qpn remote_psn remote_lid).path_mtu
        = IBV_MTU_1024 ∧
    (modify_init2rtr_attr sl port_num remote_qpn remote_psn
        remote_lid).dest_qp_num = remote_qpn ∧
    (modify_init2rtr_attr sl port_num remote_qpn remote_psn remote_lid).rq_psn
        = remote_psn ∧
    (modify_init2rtr_attr sl port_num remote_qpn remote_psn
        remote_lid).max_dest_rd_atomic = 1 ∧
    (modify_init2rtr_attr sl port_num remote_qpn remote_psn
        remote_lid).min_rnr_timer = 12 ∧
    (modify_init2rtr_attr sl port_num remote_qpn remote_psn
        remote_lid).ah_is_global = 0 ∧
    (modify_init2rtr_attr sl port_num remote_qpn remote_psn remote_lid).ah_dlid
        = remote_lid ∧
    (modify_init2rtr_attr sl port_num remote_qpn remote_psn remote_lid).ah_sl
        = sl ∧
    (modify_init2rtr_attr sl port_num remote_qpn remote_psn
        remote_lid).ah_src_path_bits = 0 ∧
    (modify_init2rtr_attr sl port_num remote_qpn remote_psn
        remote_lid).ah_port_num = port_num ∧
    modify_init2rtr_mask =
      (IBV_QP_STATE ||| IBV_QP_AV ||| IBV_QP_PATH_MTU ||| IBV_QP_DEST_QPN |||
        IBV_QP_RQ_PSN ||| IBV_QP_MAX_DEST_RD_ATOMIC ||| IBV_QP_MIN_RNR_TIMER) ∧
    modify_init2rtr_mask < 2 ^ 32 ∧
    (Finset.range 32).filter (fun b => modify_init2rtr_mask.testBit b) =
      {0, 7, 8, 12, 15, 17, 20} := by
  refine ⟨rfl, rfl, rfl, rfl, rfl, rfl, rfl, rfl, rfl, rfl, rfl, rfl,
    by decide, by decide⟩

/-- C7: `modify_rtr2rts` issues its single modify call with timeout 14,
retry_cnt 7, rnr_retry 7, max_rd_atomic 1, state RTS, the caller's send PSN,
and an attribute mask whose set bits are exactly those of {IBV_QP_STATE,
IBV_QP_TIMEOUT, IBV_QP_RETRY_CNT, IBV_QP_RNR_RETRY, IBV_QP_SQ_PSN,
IBV_QP_MAX_QP_RD_ATOMIC} (bits 0, 9, 10, 11, 16, 13) and nothing else. -/
theorem C7_rtr2rts_mask_and_values (psn : Nat) :
    (modify_rtr2rts_attr psn).qp_state = IBV_QPS_RTS ∧
    (modify_rtr2rts_attr psn).timeout = 14 ∧
    (modify_rtr2rts_attr psn).retry_cnt = 7 ∧
    (modify_rtr2rts_attr psn).rnr_retry = 7 ∧
    (modify_rtr2rts_attr psn).sq_psn = psn ∧
    (modify_rtr2rts_attr psn).max_rd_atomic = 1 ∧
    modify_rtr2rts_mask =
      (IBV_QP_STATE ||| IBV_QP_TIMEOUT ||| IBV_QP_RETRY_CNT |||
        IBV_QP_RNR_RETRY ||| IBV_QP_SQ_PSN ||| IBV_QP_MAX_QP_RD_ATOMIC) ∧
    modify_rtr2rts_mask < 2 ^ 32 ∧
    (Finset.range 32).filter (fun b => modify_rtr2rts_mask.testBit b) =
      {0, 9, 10, 11, 13, 16} := by
  refine ⟨rfl, rfl, rfl, rfl, rfl, rfl, rfl, by decide, by decide⟩

/-- C8: registering a memory region over a zero-length byte range — through
`IbvMr::new` on an empty buffer or `IbvMr::new_raw` with length 0 — fails with
the wrapper's allocation error whenever the driver rejects zero-length ranges
(spec-modelled). -/
theorem C8_zero_len_mr_rejected (access : Nat) (regMr : Nat → Nat → Option Nat)
    (h : regMrRejectsZeroLen regMr) :
    IbvMr.new [] access regMr = Except.error () ∧
    IbvMr.new_raw 0 access regMr = Except.error () := by
  constructor
  · simp [IbvMr.new, h access]
  · simp [IbvMr.new_raw, h access]

theorem C8_zero_len_mr_rejected_witness :
    IbvMr.new [] 7 (fun len _ => if len = 0 then none else some 1) =
      Except.error () ∧
    IbvMr.new_raw 0 7 (fun len _ => if len = 0 then none else some 1) =
      Except.error () :=
  C8_zero_len_mr_rejected 7 (fun len _ => if len = 0 then none else some 1)
    (fun _ => rfl)

/-- C9: with no requested name `IbvContext::new` chooses the first enumerated
device; with a requested name it chooses the first device whose name compares
equal, ignoring any later duplicates; and (when devices exist) the result of
`new` is exactly the driver's open of that chosen device. -/
theorem C9_device_selection (devList : List String) (devName : Option String)
    (openDevice : Option Nat → Option Nat) :
    (devName = none → chooseDevice devList devName = some 0) ∧
    (∀ name i, devName = some name → devList[i]? = some name →
      (∀ j, j < i → devList[j]? ≠ some name) →
      chooseDevice devList devName = some i) ∧
    (devList ≠ [] →
      IbvContext.new devList devName openDevice =
        match openDevice (chooseDevice devList devName) with
        | none => Except.error IbvContextError.OpenDeviceError
        | some ctx => Except.ok ctx) := by
  refine ⟨?_, ?_, ?_⟩
  · intro h
    subst h
    rfl
  · intro name i hname hget hbefore
    rw [hname]
    exact findDeviceIdx_eq_first devList name i hget hbefore
  · intro hne
    have hlen : devList.length ≠ 0 := by
      simpa [List.length_eq_zero] using hne
    unfold IbvContext.new
    rw [if_neg hlen]

theorem C9_device_selection_witness :
    chooseDevice ["mlx5_0", "mlx5_1", "mlx5_1"] (some "mlx5_1") = some 1 ∧
    chooseDevice ["mlx5_0", "mlx5_1"] none = some 0 ∧
    IbvContext.new ["mlx5_0", "mlx5_1", "mlx5_1"] (some "mlx5_1")
      (fun d => d) = Except.ok 1 := by
  have h := C9_device_selection ["mlx5_0", "mlx5_1", "mlx5_1"] (some "mlx5_1")
    (fun d => d)
  have h0 := C9_device_selection ["mlx5_0", "mlx5_1"] none (fun _ => some 5)
  have hsel : chooseDevice ["mlx5_0", "mlx5_1", "mlx5_1"] (some "mlx5_1") =
      some 1 := by
    apply h.2.1 "mlx5_1" 1 rfl (by decide)
    intro j hj
    have hj0 : j = 0 := by omega
    subst hj0
    decide
  refine ⟨hsel, h0.1 rfl, ?_⟩
  rw [h.2.2 (by decide), hsel]

/-- C10: every wrapper type's derived `Clone` copies the raw handle (no
reference counting), and every value dropped issues its own driver destroy
call; dropping an original plus its n clones therefore issues the destroy call
for the one underlying hardware object n + 1 times. -/
theorem C10_clone_then_drop_duplicates_destroy (hdl n : Nat) :
    IbvQpW.clone ⟨hdl⟩ = ⟨hdl⟩ ∧
    dropAllDestroyCallsQp (⟨hdl⟩ :: List.replicate n (IbvQpW.clone ⟨hdl⟩)) =
      List.replicate (n + 1) hdl ∧
    (dropAllDestroyCallsQp
      (⟨hdl⟩ :: List.replicate n (IbvQpW.clone ⟨hdl⟩))).length = n + 1 ∧
    IbvMrW.clone ⟨hdl⟩ = ⟨hdl⟩ ∧
    dropAllDestroyCallsMr (⟨hdl⟩ :: List.replicate n (IbvMrW.clone ⟨hdl⟩)) =
      List.replicate (n + 1) hdl ∧
    IbvContextW.clone ⟨hdl⟩ = ⟨hdl⟩ ∧
    IbvPdW.clone ⟨hdl⟩ = ⟨hdl⟩ ∧
    IbvCqW.clone ⟨hdl⟩ = ⟨hdl⟩ ∧
    IbvCompChannelW.clone ⟨hdl⟩ = ⟨hdl⟩ := by
  refine ⟨rfl, ?_, ?_, rfl, ?_, rfl, rfl, rfl, rfl⟩
  · simp [dropAllDestroyCallsQp, IbvQpW.clone, IbvQpW.dropDestroyCall,
      List.replicate_succ]
  · simp [dropAllDestroyCallsQp]
  · simp [dropAllDestroyCallsMr, IbvMrW.clone, IbvMrW.dropDestroyCall,
      List.replicate_succ]
